import Mathlib

/-!
Verification of the streaming standardization engine (standard_scaler):
a shallow embedding over the real numbers of `OnlineOptimizer::fit`,
`OnlineOptimizer::incremental_fit` and `StandardScaler::transform`
(src/examples/running_mean/standard_scaler/{optimizer,transformer,config,error}.rs),
with ndarray 1-D arrays of f64 modelled as `List ℝ` and f64 arithmetic
modelled by exact real arithmetic (`Real.sqrt` for `f64::sqrt`; real
division by zero yields 0 where f64 would yield inf/NaN).
-/

namespace standard_scaler

noncomputable section

/-- Delta degrees of freedom blueprint (config.rs). -/
structure Config where
  ddof : ℝ

/-- Defaults to computing the sample standard deviation (`ddof = 1`). -/
def Config.default : Config := { ddof := 1 }

/-- The fitted state: ddof, mean and standard deviation (transformer.rs). -/
structure StandardScaler where
  ddof : ℝ
  mean : ℝ
  standard_deviation : ℝ

/-- The stateful aggregator: number of samples seen so far (optimizer.rs). -/
structure OnlineOptimizer where
  n_samples : ℕ

/-- Initialize n_samples to 0. -/
def OnlineOptimizer.default : OnlineOptimizer := { n_samples := 0 }

/-- Fast-and-dirty error struct (error.rs): a single unit-like error value. -/
inductive ScalingError where
  | scalingError

/-- ndarray `mean_axis(Axis(0)).into_scalar()` on a 1-D array: arithmetic mean. -/
def mean_axis (xs : List ℝ) : ℝ := xs.sum / xs.length

/-- ndarray `std_axis(Axis(0), ddof).into_scalar()` on a 1-D array:
square root of the sum of squared deviations over `n - ddof`. -/
def std_axis (xs : List ℝ) (ddof : ℝ) : ℝ :=
  Real.sqrt ((xs.map (fun x => (x - mean_axis xs) ^ 2)).sum / ((xs.length : ℝ) - ddof))

/-- `OnlineOptimizer::fit` (optimizer.rs lines 24-44): rejects an empty batch,
otherwise computes mean and ddof-adjusted standard deviation and resets the
sample count to the batch length.  The `&mut self` receiver is modelled by
returning the updated optimizer next to the result. -/
def fit (self : OnlineOptimizer) (inputs : List ℝ) (_targets : List ℝ) (blueprint : Config) :
    Except ScalingError StandardScaler × OnlineOptimizer :=
  if inputs.length = 0 then
    (Except.error ScalingError.scalingError, self)
  else
    let mean := mean_axis inputs
    let standard_deviation := std_axis inputs blueprint.ddof
    (Except.ok { ddof := blueprint.ddof, mean := mean,
                 standard_deviation := standard_deviation },
     { n_samples := inputs.length })

/-- `OnlineOptimizer::incremental_fit` (optimizer.rs lines 53-92): empty batch
is a no-op; otherwise merges the current scaler with the new batch via the
parallel-variance formula and adds the batch length to the sample count. -/
def incremental_fit (self : OnlineOptimizer) (inputs : List ℝ) (_targets : List ℝ)
    (transformer : StandardScaler) :
    Except ScalingError StandardScaler × OnlineOptimizer :=
  if inputs.length = 0 then
    (Except.ok transformer, self)
  else
    let ddof := transformer.ddof
    let batch_n_samples := inputs.length
    let batch_mean := mean_axis inputs
    let batch_std := std_axis inputs ddof
    let mean_delta := batch_mean - transformer.mean
    let new_n_samples := self.n_samples + batch_n_samples
    let new_mean :=
      transformer.mean + mean_delta * (batch_n_samples : ℝ) / (new_n_samples : ℝ)
    let new_std := Real.sqrt
      ((transformer.standard_deviation ^ 2 * ((self.n_samples : ℝ) - ddof)
          + batch_std ^ 2 * ((batch_n_samples : ℝ) - ddof)
          + mean_delta ^ 2 * (self.n_samples : ℝ) * (batch_n_samples : ℝ)
            / (new_n_samples : ℝ))
        / ((new_n_samples : ℝ) - ddof))
    (Except.ok { ddof := ddof, mean := new_mean, standard_deviation := new_std },
     { n_samples := new_n_samples })

/-- `StandardScaler::transform` (transformer.rs lines 23-28): elementwise
`(x - mean) / standard_deviation`, always returning `Ok`. -/
def transform (self : StandardScaler) (inputs : List ℝ) : Except ScalingError (List ℝ) :=
  Except.ok (inputs.map (fun x => (x - self.mean) / self.standard_deviation))

/-- The spec's arithmetic mean of a batch, written independently as a left fold. -/
def spec_arithmetic_mean (batch : List ℝ) : ℝ :=
  (batch.foldl (fun acc x => acc + x) 0) / (batch.length : ℝ)

/-- The spec's ddof-adjusted standard deviation of a batch (divisor `n - ddof`),
written independently as a left fold of squared deviations. -/
def spec_ddof_std (batch : List ℝ) (ddof : ℝ) : ℝ :=
  Real.sqrt
    ((batch.foldl (fun acc x => acc + (x - spec_arithmetic_mean batch) ^ 2) 0)
      / ((batch.length : ℝ) - ddof))

/-- The ddof of the scaler a fallible operation returned, with a fallback for
the error case. -/
def returned_ddof (result : Except ScalingError StandardScaler) (fallback : ℝ) : ℝ :=
  match result with
  | Except.ok s => s.ddof
  | Except.error _ => fallback

end

/-! ### Basic lemmas about the embedding -/

theorem foldl_add_shift (f : ℝ → ℝ) (xs : List ℝ) :
    ∀ a : ℝ, xs.foldl (fun acc x => acc + f x) a = a + (xs.map f).sum := by
  induction xs with
  | nil => intro a; simp
  | cons y ys ih =>
    intro a
    simp only [List.foldl_cons, List.map_cons, List.sum_cons, ih (a + f y)]
    ring

theorem spec_arithmetic_mean_eq (xs : List ℝ) : spec_arithmetic_mean xs = mean_axis xs := by
  have h := foldl_add_shift (fun x => x) xs 0
  simp only [List.map_id_fun, id] at h
  simp [spec_arithmetic_mean, mean_axis, h, List.map_id]

theorem spec_ddof_std_eq (xs : List ℝ) (d : ℝ) : spec_ddof_std xs d = std_axis xs d := by
  have h := foldl_add_shift (fun x => (x - spec_arithmetic_mean xs) ^ 2) xs 0
  rw [spec_arithmetic_mean_eq] at h
  simp [spec_ddof_std, std_axis, h, spec_arithmetic_mean_eq]

theorem ssd_nonneg (c : ℝ) (xs : List ℝ) :
    0 ≤ (xs.map (fun x => (x - c) ^ 2)).sum := by
  refine List.sum_nonneg ?_
  intro x hx
  simp only [List.mem_map] at hx
  obtain ⟨y, _, rfl⟩ := hx
  positivity

theorem sum_sq_dev_expand (c : ℝ) (xs : List ℝ) :
    (xs.map (fun x => (x - c) ^ 2)).sum
      = (xs.map (fun x => x ^ 2)).sum - 2 * c * xs.sum + (xs.length : ℝ) * c ^ 2 := by
  induction xs with
  | nil => simp
  | cons y ys ih =>
    simp only [List.map_cons, List.sum_cons, List.length_cons, ih]
    push_cast
    ring

theorem ssd_eq_sumsq (xs : List ℝ) (h : (xs.length : ℝ) ≠ 0) :
    (xs.map (fun x => (x - mean_axis xs) ^ 2)).sum
      = (xs.map (fun x => x ^ 2)).sum - xs.sum ^ 2 / (xs.length : ℝ) := by
  rw [sum_sq_dev_expand, mean_axis]
  field_simp
  ring

theorem mean_axis_append (A B : List ℝ)
    (hA : (A.length : ℝ) ≠ 0) (hB : (B.length : ℝ) ≠ 0) :
    mean_axis (A ++ B)
      = mean_axis A + (mean_axis B - mean_axis A) * (B.length : ℝ)
        / ((A.length : ℝ) + (B.length : ℝ)) := by
  have hn : (A.length : ℝ) + (B.length : ℝ) ≠ 0 := by
    have h1 : (0 : ℝ) < (A.length : ℝ) :=
      lt_of_le_of_ne (Nat.cast_nonneg _) (Ne.symm hA)
    have h2 : (0 : ℝ) ≤ (B.length : ℝ) := Nat.cast_nonneg _
    exact (add_pos_of_pos_of_nonneg h1 h2).ne'
  simp only [mean_axis, List.sum_append, List.length_append]
  push_cast
  field_simp
  ring

theorem ssd_append (A B : List ℝ)
    (hA : (A.length : ℝ) ≠ 0) (hB : (B.length : ℝ) ≠ 0) :
    ((A ++ B).map (fun x => (x - mean_axis (A ++ B)) ^ 2)).sum
      = (A.map (fun x => (x - mean_axis A) ^ 2)).sum
        + (B.map (fun x => (x - mean_axis B) ^ 2)).sum
        + (mean_axis B - mean_axis A) ^ 2 * (A.length : ℝ) * (B.length : ℝ)
          / ((A.length : ℝ) + (B.length : ℝ)) := by
  have hn : (A.length : ℝ) + (B.length : ℝ) ≠ 0 := by
    have h1 : (0 : ℝ) < (A.length : ℝ) :=
      lt_of_le_of_ne (Nat.cast_nonneg _) (Ne.symm hA)
    have h2 : (0 : ℝ) ≤ (B.length : ℝ) := Nat.cast_nonneg _
    exact (add_pos_of_pos_of_nonneg h1 h2).ne'
  have hnn : ((A ++ B).length : ℝ) ≠ 0 := by
    rw [List.length_append]
    push_cast
    exact hn
  rw [ssd_eq_sumsq _ hnn, ssd_eq_sumsq A hA, ssd_eq_sumsq B hB]
  simp only [List.map_append, List.sum_append, List.length_append, mean_axis]
  push_cast
  field_simp
  ring

/-! ### Claim theorems -/

/-- C4: for every Aggregator state and every Configuration, calling fit on a
zero-length batch returns the error and leaves the Aggregator's count
unchanged at its prior value; no Standardizer is produced. -/
theorem fit_empty_rejects (opt : OnlineOptimizer) (targets : List ℝ) (cfg : Config) :
    fit opt [] targets cfg = (Except.error ScalingError.scalingError, opt) := by
  simp [fit]

/-- C5: for every Standardizer S and every Aggregator state, calling update with
a zero-length batch returns S unchanged (same ddof, mean and standard
deviation) and leaves the Aggregator's count unchanged: a successful no-op. -/
theorem incremental_fit_empty_noop (opt : OnlineOptimizer) (targets : List ℝ)
    (current : StandardScaler) :
    incremental_fit opt [] targets current = (Except.ok current, opt) := by
  simp [incremental_fit]

/-- C9: every Standardizer returned by a successful update has the ddof of the
Standardizer passed in, and every Standardizer returned by a successful fit has
the ddof of the supplied Configuration (the fallback of `returned_ddof` is the
same value, so each equation says exactly that about the success case). -/
theorem ddof_preserved (opt : OnlineOptimizer) (inputs targets : List ℝ)
    (cfg : Config) (current : StandardScaler) :
    returned_ddof (fit opt inputs targets cfg).1 cfg.ddof = cfg.ddof ∧
    returned_ddof (incremental_fit opt inputs targets current).1 current.ddof
      = current.ddof := by
  constructor
  · by_cases h : inputs.length = 0 <;> simp [fit, h, returned_ddof]
  · by_cases h : inputs.length = 0 <;> simp [incremental_fit, h, returned_ddof]

/-- C10: the targets argument has no influence on fit or update: two runs that
agree on everything but the targets return identical results and identical
Aggregator states. -/
theorem targets_ignored (opt : OnlineOptimizer) (inputs targets1 targets2 : List ℝ)
    (cfg : Config) (current : StandardScaler) :
    fit opt inputs targets1 cfg = fit opt inputs targets2 cfg ∧
    incremental_fit opt inputs targets1 current
      = incremental_fit opt inputs targets2 current :=
  ⟨rfl, rfl⟩

/-- C3 counterexample: a Standardizer with standard deviation exactly zero does
not make transform fail: on the batch `[1]` the call succeeds, so the claim
that it fails with a degenerate-scale error is false (no such error exists in
the code; the division is performed silently). -/
theorem transform_zero_scale_counterexample :
    (StandardScaler.mk 1 0 0).standard_deviation = 0 ∧
    transform (StandardScaler.mk 1 0 0) [1] ≠ Except.error ScalingError.scalingError ∧
    ∃ out, transform (StandardScaler.mk 1 0 0) [1] = Except.ok out := by
  refine ⟨rfl, ?_, ⟨_, rfl⟩⟩
  simp [transform]

/-- C3 amended: for every Standardizer whose standard deviation is exactly zero
and every batch, transform still succeeds, returning the elementwise division
`(x - mean) / standard_deviation` (which in f64 silently produces infinities
or NaN; the code raises no degenerate-scale error). -/
theorem transform_zero_scale (self : StandardScaler) (inputs : List ℝ)
    (h : self.standard_deviation = 0) :
    ∃ out, transform self inputs = Except.ok out ∧
      out = inputs.map (fun x => (x - self.mean) / self.standard_deviation) :=
  ⟨_, rfl, rfl⟩

/-- C3 amended, witness at a concrete degenerate scaler and batch. -/
theorem transform_zero_scale_witness :
    ∃ out, transform (StandardScaler.mk 1 0 0) [1] = Except.ok out ∧
      out = ([1] : List ℝ).map
        (fun x => (x - (StandardScaler.mk 1 0 0).mean)
          / (StandardScaler.mk 1 0 0).standard_deviation) :=
  transform_zero_scale (StandardScaler.mk 1 0 0) [1] rfl

/-- C8: for every Standardizer with nonzero standard deviation and every batch,
transform succeeds with an output of the batch's length whose ith element is
`(batch[i] - mean) / standard_deviation`; it is a pure function of the scaler
and the batch (the Aggregator does not appear in its signature). -/
theorem transform_formula (self : StandardScaler) (inputs : List ℝ)
    (h : self.standard_deviation ≠ 0) :
    ∃ out, transform self inputs = Except.ok out ∧
      out.length = inputs.length ∧
      ∀ (i : ℕ) (h1 : i < inputs.length) (h2 : i < out.length),
        out.get ⟨i, h2⟩ = (inputs.get ⟨i, h1⟩ - self.mean) / self.standard_deviation := by
  refine ⟨_, rfl, by simp [transform], ?_⟩
  intro i h1 h2
  simp [transform]

/-- C8 witness at a concrete scaler and batch. -/
theorem transform_formula_witness :
    ∃ out, transform (StandardScaler.mk 1 0 1) [5] = Except.ok out ∧
      out.length = ([5] : List ℝ).length ∧
      ∀ (i : ℕ) (h1 : i < ([5] : List ℝ).length) (h2 : i < out.length),
        out.get ⟨i, h2⟩ = (([5] : List ℝ).get ⟨i, h1⟩ - (StandardScaler.mk 1 0 1).mean)
          / (StandardScaler.mk 1 0 1).standard_deviation :=
  transform_formula (StandardScaler.mk 1 0 1) [5] one_ne_zero

/-- C6: for every non-empty batch and every Configuration, fit returns a
Standardizer whose mean is the arithmetic mean of the batch and whose standard
deviation is the ddof-adjusted standard deviation (divisor `n - ddof`), and it
sets the Aggregator's count to the batch length, overwriting any prior count. -/
theorem fit_formula (opt : OnlineOptimizer) (inputs targets : List ℝ) (cfg : Config)
    (h : inputs ≠ []) :
    fit opt inputs targets cfg
      = (Except.ok (StandardScaler.mk cfg.ddof (spec_arithmetic_mean inputs)
          (spec_ddof_std inputs cfg.ddof)),
         OnlineOptimizer.mk inputs.length) := by
  have hlen : inputs.length ≠ 0 := fun hc => h (List.length_eq_zero.mp hc)
  simp [fit, hlen, spec_arithmetic_mean_eq, spec_ddof_std_eq]

/-- C6 witness: a concrete fit on `[1, 3]` with a prior count of 5. -/
theorem fit_formula_witness :
    fit (OnlineOptimizer.mk 5) [1, 3] [] (Config.mk 1)
      = (Except.ok (StandardScaler.mk 1 (spec_arithmetic_mean [1, 3])
          (spec_ddof_std [1, 3] 1)),
         OnlineOptimizer.mk 2) :=
  fit_formula (OnlineOptimizer.mk 5) [1, 3] [] (Config.mk 1) (by simp)

/-- C2: for every non-empty batch given to update with current Standardizer and
count `n1`, with `n2` the batch length, `n = n1 + n2`, `m2` and `s2` the
batch's mean and ddof-adjusted standard deviation and `δ = m2 - current.mean`,
the result has mean `current.mean + δ * n2 / n` and standard deviation
`sqrt((current.std² * (n1 - ddof) + s2² * (n2 - ddof) + δ² * n1 * n2 / n)
/ (n - ddof))`, and the Aggregator's count becomes `n`. -/
theorem incremental_fit_formula (opt : OnlineOptimizer) (inputs targets : List ℝ)
    (current : StandardScaler) (h : inputs ≠ []) :
    incremental_fit opt inputs targets current
      = (Except.ok (StandardScaler.mk current.ddof
          (current.mean
            + (spec_arithmetic_mean inputs - current.mean) * (inputs.length : ℝ)
              / ((opt.n_samples : ℝ) + (inputs.length : ℝ)))
          (Real.sqrt
            ((current.standard_deviation ^ 2 * ((opt.n_samples : ℝ) - current.ddof)
                + spec_ddof_std inputs current.ddof ^ 2
                  * ((inputs.length : ℝ) - current.ddof)
                + (spec_arithmetic_mean inputs - current.mean) ^ 2
                  * (opt.n_samples : ℝ) * (inputs.length : ℝ)
                  / ((opt.n_samples : ℝ) + (inputs.length : ℝ)))
              / ((opt.n_samples : ℝ) + (inputs.length : ℝ) - current.ddof)))),
         OnlineOptimizer.mk (opt.n_samples + inputs.length)) := by
  have hlen : inputs.length ≠ 0 := fun hc => h (List.length_eq_zero.mp hc)
  simp only [incremental_fit, hlen, if_false, spec_arithmetic_mean_eq, spec_ddof_std_eq]
  push_cast
  rfl

/-- C2 witness: a concrete update of a fitted state by the batch `[1, 3]`. -/
theorem incremental_fit_formula_witness :
    incremental_fit (OnlineOptimizer.mk 8) [1, 3] [] (StandardScaler.mk 1 5 2)
      = (Except.ok (StandardScaler.mk 1
          (5 + (spec_arithmetic_mean [1, 3] - 5) * ((2 : ℕ) : ℝ)
            / (((8 : ℕ) : ℝ) + ((2 : ℕ) : ℝ)))
          (Real.sqrt
            ((2 ^ 2 * (((8 : ℕ) : ℝ) - 1)
                + spec_ddof_std [1, 3] 1 ^ 2 * (((2 : ℕ) : ℝ) - 1)
                + (spec_arithmetic_mean [1, 3] - 5) ^ 2 * ((8 : ℕ) : ℝ) * ((2 : ℕ) : ℝ)
                  / (((8 : ℕ) : ℝ) + ((2 : ℕ) : ℝ)))
              / (((8 : ℕ) : ℝ) + ((2 : ℕ) : ℝ) - 1)))),
         OnlineOptimizer.mk 10) :=
  incremental_fit_formula (OnlineOptimizer.mk 8) [1, 3] [] (StandardScaler.mk 1 5 2)
    (by simp)

/-- C1 amended: for two non-empty batches whose sizes each exceed ddof (so both
per-batch standard deviations are well defined; combined size then also exceeds
ddof), fitting the first batch on a fresh Aggregator and updating with the
second yields exactly the mean and standard deviation of fitting the
concatenation directly, and the same count. -/
theorem merge_equivalence (A B targets1 targets2 targets3 : List ℝ) (cfg : Config)
    (hA : A ≠ []) (hB : B ≠ [])
    (h1 : cfg.ddof < (A.length : ℝ)) (h2 : cfg.ddof < (B.length : ℝ)) :
    ∃ (s1 s2 s3 : StandardScaler) (o1 o2 o3 : OnlineOptimizer),
      fit OnlineOptimizer.default A targets1 cfg = (Except.ok s1, o1) ∧
      incremental_fit o1 B targets2 s1 = (Except.ok s2, o2) ∧
      fit OnlineOptimizer.default (A ++ B) targets3 cfg = (Except.ok s3, o3) ∧
      s2.mean = s3.mean ∧ s2.standard_deviation = s3.standard_deviation ∧
      o2.n_samples = o3.n_samples := by
  have hA0 : A.length ≠ 0 := fun hc => hA (List.length_eq_zero.mp hc)
  have hB0 : B.length ≠ 0 := fun hc => hB (List.length_eq_zero.mp hc)
  have hA0R : (A.length : ℝ) ≠ 0 := Nat.cast_ne_zero.mpr hA0
  have hB0R : (B.length : ℝ) ≠ 0 := Nat.cast_ne_zero.mpr hB0
  have h1p : (0 : ℝ) < (A.length : ℝ) - cfg.ddof := sub_pos.mpr h1
  have h2p : (0 : ℝ) < (B.length : ℝ) - cfg.ddof := sub_pos.mpr h2
  have hsA : std_axis A cfg.ddof ^ 2
      = (A.map (fun x => (x - mean_axis A) ^ 2)).sum / ((A.length : ℝ) - cfg.ddof) := by
    rw [std_axis]
    exact Real.sq_sqrt (div_nonneg (ssd_nonneg _ _) h1p.le)
  have hsB : std_axis B cfg.ddof ^ 2
      = (B.map (fun x => (x - mean_axis B) ^ 2)).sum / ((B.length : ℝ) - cfg.ddof) := by
    rw [std_axis]
    exact Real.sq_sqrt (div_nonneg (ssd_nonneg _ _) h2p.le)
  refine ⟨StandardScaler.mk cfg.ddof (mean_axis A) (std_axis A cfg.ddof),
    StandardScaler.mk cfg.ddof (mean_axis (A ++ B)) (std_axis (A ++ B) cfg.ddof),
    StandardScaler.mk cfg.ddof (mean_axis (A ++ B)) (std_axis (A ++ B) cfg.ddof),
    OnlineOptimizer.mk A.length,
    OnlineOptimizer.mk (A.length + B.length),
    OnlineOptimizer.mk (A ++ B).length,
    ?_, ?_, ?_, rfl, rfl, by simp⟩
  · simp [fit, hA0]
  · simp only [incremental_fit, hB0, if_false, Prod.mk.injEq, Except.ok.injEq,
      StandardScaler.mk.injEq, true_and]
    refine ⟨⟨?_, ?_⟩, trivial⟩
    · rw [mean_axis_append A B hA0R hB0R]
      push_cast
      ring
    · rw [hsA, hsB, div_mul_cancel₀ _ h1p.ne', div_mul_cancel₀ _ h2p.ne', std_axis]
      congr 1
      rw [ssd_append A B hA0R hB0R, List.length_append]
      push_cast
      ring
  · have hAB0 : (A ++ B).length ≠ 0 := by rw [List.length_append]; omega
    simp [fit, hAB0]
    exact fun _ hBe => hB hBe

/-- C1 amended, witness: two concrete two-element batches with ddof 1. -/
theorem merge_equivalence_witness :
    ∃ (s1 s2 s3 : StandardScaler) (o1 o2 o3 : OnlineOptimizer),
      fit OnlineOptimizer.default [2, 4] [] (Config.mk 1) = (Except.ok s1, o1) ∧
      incremental_fit o1 [1, 3] [] s1 = (Except.ok s2, o2) ∧
      fit OnlineOptimizer.default ([2, 4] ++ [1, 3]) [] (Config.mk 1)
        = (Except.ok s3, o3) ∧
      s2.mean = s3.mean ∧ s2.standard_deviation = s3.standard_deviation ∧
      o2.n_samples = o3.n_samples :=
  merge_equivalence [2, 4] [1, 3] [] [] [] (Config.mk 1) (by simp) (by simp)
    (by norm_num) (by norm_num)

/-- C1 counterexample: with `ddof = 2` and the non-empty batches `A = B = [0, 2]`
the combined size 4 exceeds ddof, yet the chained `fit` then `update` ends with
standard deviation 0 while the direct fit of the concatenation has standard
deviation `sqrt 2`: the claim's precondition `n1 + n2 > ddof` is not enough
(each batch's own size must exceed ddof). -/
theorem merge_equivalence_counterexample :
    ((([0, 2] : List ℝ).length : ℝ) + (([0, 2] : List ℝ).length : ℝ)
        > (Config.mk 2).ddof) ∧
    ∃ (s1 s2 s3 : StandardScaler) (o1 o2 o3 : OnlineOptimizer),
      fit OnlineOptimizer.default [0, 2] [] (Config.mk 2) = (Except.ok s1, o1) ∧
      incremental_fit o1 [0, 2] [] s1 = (Except.ok s2, o2) ∧
      fit OnlineOptimizer.default ([0, 2] ++ [0, 2]) [] (Config.mk 2)
        = (Except.ok s3, o3) ∧
      s2.standard_deviation ≠ s3.standard_deviation := by
  constructor
  · norm_num
  refine ⟨StandardScaler.mk 2 1 0, StandardScaler.mk 2 1 0,
    StandardScaler.mk 2 1 (Real.sqrt 2), OnlineOptimizer.mk 2, OnlineOptimizer.mk 4,
    OnlineOptimizer.mk 4, ?_, ?_, ?_, ?_⟩
  · simp only [fit, mean_axis, std_axis]
    norm_num
  · simp only [incremental_fit, mean_axis, std_axis]
    norm_num
  · simp only [fit, mean_axis, std_axis]
    norm_num
  · simp only
    exact (Real.sqrt_pos.mpr (by norm_num)).ne

theorem scenario_fit_eq :
    fit OnlineOptimizer.default [2, 4, 4, 4, 5, 5, 7, 9] [] (Config.mk 1)
      = (Except.ok (StandardScaler.mk 1 5 (Real.sqrt (32 / 7))), OnlineOptimizer.mk 8) := by
  simp only [fit, mean_axis, std_axis]
  norm_num

theorem scenario_update_eq :
    incremental_fit (OnlineOptimizer.mk 8) [1, 3] []
        (StandardScaler.mk 1 5 (Real.sqrt (32 / 7)))
      = (Except.ok (StandardScaler.mk 1 4.4 (Real.sqrt (242 / 45))),
         OnlineOptimizer.mk 10) := by
  simp only [incremental_fit, mean_axis, std_axis]
  norm_num
  rw [div_pow, Real.sq_sqrt (by norm_num : (0:ℝ) ≤ 32),
    Real.sq_sqrt (by norm_num : (0:ℝ) ≤ 7)]
  rw [show (32:ℝ) / 7 * 7 + 2 + 72 / 5 = 242 / 5 by norm_num]
  rw [← Real.sqrt_div (by norm_num : (0:ℝ) ≤ 242 / 5) 9,
      ← Real.sqrt_div (by norm_num : (0:ℝ) ≤ 242) 45]
  norm_num

theorem scenario_transform_mean :
    mean_axis (List.map (fun x => (x - 5) / Real.sqrt (32 / 7)) [2, 4, 4, 4, 5, 5, 7, 9])
      = 0 := by
  simp only [mean_axis, List.map_cons, List.map_nil, List.sum_cons, List.sum_nil,
    List.length_cons, List.length_nil]
  ring_nf

theorem scenario_transform_std :
    std_axis (List.map (fun x => (x - 5) / Real.sqrt (32 / 7)) [2, 4, 4, 4, 5, 5, 7, 9]) 1
      = 1 := by
  rw [std_axis, scenario_transform_mean]
  simp only [List.map_cons, List.map_nil, List.sum_cons, List.sum_nil,
    List.length_cons, List.length_nil]
  norm_num
  ring_nf
  rw [inv_inv, inv_pow, Real.sq_sqrt (by norm_num : (0:ℝ) ≤ 32),
    Real.sq_sqrt (by norm_num : (0:ℝ) ≤ 7),
    show (32:ℝ)⁻¹ * 7 * 32 = 7 by norm_num]
  exact inv_mul_cancel₀ (ne_of_gt (Real.sqrt_pos.mpr (by norm_num)))

/-- C7 counterexample: running the claimed scenario — fit on
`[2, 4, 4, 4, 5, 5, 7, 9]` with ddof 1, then update with `[1, 3]` — gives a
standard deviation of `sqrt(242/45) ≈ 2.31900`, which is farther than 1/10
from the claimed value 2.458, so the claimed `≈ 2.458` is not reproduced
within any reasonable tolerance. -/
theorem concrete_scenario_counterexample :
    ∃ (s1 : StandardScaler) (o1 : OnlineOptimizer) (s2 : StandardScaler)
      (o2 : OnlineOptimizer),
      fit OnlineOptimizer.default [2, 4, 4, 4, 5, 5, 7, 9] [] (Config.mk 1)
        = (Except.ok s1, o1) ∧
      incremental_fit o1 [1, 3] [] s1 = (Except.ok s2, o2) ∧
      1 / 10 < |s2.standard_deviation - 2.458| := by
  refine ⟨StandardScaler.mk 1 5 (Real.sqrt (32 / 7)), OnlineOptimizer.mk 8,
    StandardScaler.mk 1 4.4 (Real.sqrt (242 / 45)), OnlineOptimizer.mk 10,
    scenario_fit_eq, scenario_update_eq, ?_⟩
  show 1 / 10 < |Real.sqrt (242 / 45) - 2.458|
  have hub : Real.sqrt (242 / 45) < 2.32 :=
    (Real.sqrt_lt' (by norm_num)).mpr (by norm_num)
  have hnn : (0:ℝ) ≤ Real.sqrt (242 / 45) := Real.sqrt_nonneg _
  rw [abs_of_neg (by linarith : Real.sqrt (242 / 45) - 2.458 < 0)]
  linarith

/-- C7 amended: the concrete scenario with the corrected final standard
deviation: fit on `A = [2, 4, 4, 4, 5, 5, 7, 9]` with ddof 1 gives mean 5 and
standard deviation `sqrt(32/7) ≈ 2.13809`; transforming `A` with that
Standardizer gives output with mean exactly 0 and (ddof 1) standard deviation
exactly 1; updating with `[1, 3]` (counts 8 and 2) gives mean 4.4, standard
deviation `sqrt(242/45) ≈ 2.319` (not 2.458), and count 10. -/
theorem concrete_scenario :
    ∃ (s1 : StandardScaler) (o1 : OnlineOptimizer) (out : List ℝ)
      (s2 : StandardScaler) (o2 : OnlineOptimizer),
      fit OnlineOptimizer.default [2, 4, 4, 4, 5, 5, 7, 9] [] (Config.mk 1)
        = (Except.ok s1, o1) ∧
      s1.mean = 5 ∧ |s1.standard_deviation - 2.13809| < 1 / 1000 ∧
      transform s1 [2, 4, 4, 4, 5, 5, 7, 9] = Except.ok out ∧
      mean_axis out = 0 ∧ std_axis out 1 = 1 ∧
      incremental_fit o1 [1, 3] [] s1 = (Except.ok s2, o2) ∧
      s2.mean = 4.4 ∧ |s2.standard_deviation - 2.319| < 1 / 100 ∧
      o2.n_samples = 10 := by
  refine ⟨StandardScaler.mk 1 5 (Real.sqrt (32 / 7)), OnlineOptimizer.mk 8,
    List.map (fun x => (x - 5) / Real.sqrt (32 / 7)) [2, 4, 4, 4, 5, 5, 7, 9],
    StandardScaler.mk 1 4.4 (Real.sqrt (242 / 45)), OnlineOptimizer.mk 10,
    scenario_fit_eq, rfl, ?_, rfl, scenario_transform_mean, scenario_transform_std,
    scenario_update_eq, rfl, ?_, rfl⟩
  · show |Real.sqrt (32 / 7) - 2.13809| < 1 / 1000
    have h1 : Real.sqrt (32 / 7) < 2.1381 :=
      (Real.sqrt_lt' (by norm_num)).mpr (by norm_num)
    have h2 : 2.138 < Real.sqrt (32 / 7) :=
      (Real.lt_sqrt (by norm_num)).mpr (by norm_num)
    rw [abs_sub_lt_iff]
    constructor <;> linarith
  · show |Real.sqrt (242 / 45) - 2.319| < 1 / 100
    have h1 : Real.sqrt (242 / 45) < 2.32 :=
      (Real.sqrt_lt' (by norm_num)).mpr (by norm_num)
    have h2 : 2.319 < Real.sqrt (242 / 45) :=
      (Real.lt_sqrt (by norm_num)).mpr (by norm_num)
    rw [abs_sub_lt_iff]
    constructor <;> linarith

end standard_scaler
